import Mathlib

/-!
Verification of the CrewAI-MCP repository against its specification.

The development shallowly embeds the parts of the code the claims are
about:

* `src/src/tools/github_tools.py` — the four GitHub fetch tools
  (`fetch_pr`, `fetch_pr_files`, `fetch_pr_comments`, `fetch_pr_commits`)
  and the factory `create_github_tools`.
* `src/src/crews/pr_analyzer.py` — the agent/task wiring of
  `run_pr_analysis_crew`.
* `src/src/server.py` — the MCP tools `fetch_pr_authenticated` and
  `test_github_token`.

Python strings are modelled by Lean `String`; the Python slice `s[:n]`
is `pySlice s n`.  An HTTP call is modelled by its observable outcome
(`HttpOutcome`): either a transport-level exception or a response with
a status code, a raw body text, and the parsed JSON payload.  A Python
function body that may either return a value or let an exception escape
is modelled by `RunResult`.
-/

/-- Python string slice `s[:n]`: the first `n` characters of `s`. -/
def pySlice (s : String) (n : Nat) : String := ⟨s.data.take n⟩

/-- Concatenation of a list of strings (the blocks accumulated by a
Python `for` loop doing `output += block`). -/
def concatStrs : List String → String
  | [] => ""
  | s :: rest => s ++ concatStrs rest

/-- Python truthiness of an `Optional[str]`: `None` and the empty
string are falsy, every other string is truthy. -/
def pyTruthy : Option String → Bool
  | none => false
  | some t => !(t == "")

/-- Observable outcome of one `httpx` GET: either a transport-level
exception carrying its message, or a response with status code, raw
body text and parsed JSON payload (`response.json()` is only read on
the success path of the embedded code). -/
inductive HttpOutcome (α : Type) where
  | exn (msg : String)
  | resp (status : Nat) (text : String) (json : α)

/-- Result of running a Python function body: either it returns a
string, or an uncaught exception escapes to the caller. -/
inductive RunResult where
  | returned (s : String)
  | raised (msg : String)
deriving DecidableEq

/-- An outgoing HTTP request as built by the tools: URL, header list,
and the `timeout=10` argument of `httpx.get`. -/
structure HttpRequest where
  url : String
  headers : List (String × String)
  timeout : Nat
deriving DecidableEq

/-- Header construction shared by all four tools in
`github_tools.py`: a dict with the `Accept` header, to which an
`Authorization` header is added only when `if self.github_token:` is
truthy (so neither for `None` nor for the empty string). -/
def toolHeaders (github_token : Option String) : List (String × String) :=
  match github_token with
  | none => [("Accept", "application/vnd.github.v3+json")]
  | some t =>
      if t = "" then [("Accept", "application/vnd.github.v3+json")]
      else [("Accept", "application/vnd.github.v3+json"), ("Authorization", "Bearer " ++ t)]

/-- URL built by `FetchPRTool._run`. -/
def pr_url (repo : String) (pr_number : Nat) : String :=
  "https://api.github.com/repos/" ++ repo ++ "/pulls/" ++ toString pr_number

/-- The request issued by `FetchPRTool._run`:
`httpx.get(url, headers=headers, timeout=10)`. -/
def fetchPR_request (repo : String) (pr_number : Nat) (github_token : Option String) :
    HttpRequest :=
  { url := pr_url repo pr_number, headers := toolHeaders github_token, timeout := 10 }

/-- The `pr_info` record extracted by `FetchPRTool._run` from the JSON
payload (defaults from `data.get(...)` already applied).  A `null` or
missing description behaves like the falsy empty string in the
rendering below, so `body` is modelled as a plain string. -/
structure PRData where
  title : String
  number : Nat
  author : String
  state : String
  created_at : String
  updated_at : String
  body : String
  html_url : String
  additions : Nat
  deletions : Nat
  changed_files : Nat
  commits : Nat
  mergeable_state : String
  draft : Bool
deriving DecidableEq

/-- The description line of the `fetch_pr` report:
`pr_info['body'][:1000] if pr_info['body'] else 'No description provided'`. -/
def prDescription (body : String) : String :=
  if body = "" then "No description provided" else pySlice body 1000

/-- The part of the `fetch_pr` report before the description. -/
def renderPRHead (p : PRData) : String :=
  "Pull Request #" ++ toString p.number ++ ": " ++ p.title
    ++ "\n\nAuthor: " ++ p.author
    ++ "\nState: " ++ p.state ++ " " ++ (if p.draft then "(Draft)" else "")
    ++ "\nCreated: " ++ p.created_at
    ++ "\nUpdated: " ++ p.updated_at
    ++ "\n\nDescription:\n"

/-- The part of the `fetch_pr` report after the description. -/
def renderPRTail (p : PRData) : String :=
  "\n\nChanges:\n- Files changed: " ++ toString p.changed_files
    ++ "\n- Additions: +" ++ toString p.additions
    ++ "\n- Deletions: -" ++ toString p.deletions
    ++ "\n- Commits: " ++ toString p.commits
    ++ "\n- Mergeable: " ++ p.mergeable_state
    ++ "\n\nURL: " ++ p.html_url ++ "\n"

/-- The f-string returned by `FetchPRTool._run` on a 200 response. -/
def renderPR (p : PRData) : String :=
  renderPRHead p ++ prDescription p.body ++ renderPRTail p

/-- `FetchPRTool._run`: the `httpx.get` call is not wrapped in any
`try`, so an exception outcome escapes; a non-200 response returns the
error string with the untruncated body; a 200 response returns the
rendered report. -/
def fetchPR_run (o : HttpOutcome PRData) : RunResult :=
  match o with
  | .exn msg => .raised msg
  | .resp status text data =>
      if status ≠ 200 then .returned ("Error: " ++ toString status ++ " - " ++ text)
      else .returned (renderPR data)

/-- One element of the `/files` JSON list, restricted to the fields
`FetchPRFilesTool._run` reads; `patch` is `none` when the key is
absent (`file.get('patch', 'No patch available')`). -/
structure FileRec where
  filename : String
  status : String
  additions : Nat
  deletions : Nat
  patch : Option String
deriving DecidableEq

/-- The part of one file block before the patch preview. -/
def fileBlockHead (f : FileRec) : String :=
  "File: " ++ f.filename
    ++ "\nStatus: " ++ f.status
    ++ "\nChanges: +" ++ toString f.additions ++ " -" ++ toString f.deletions
    ++ "\nPatch preview:\n"

/-- One file block of the `fetch_pr_files` report. -/
def fileBlock (f : FileRec) : String :=
  fileBlockHead f ++ pySlice (f.patch.getD "No patch available") 500 ++ "\n\n---\n"

/-- The header line `Files changed in PR: {len(files)}` — note it uses
the length of the full upstream list, not the capped prefix. -/
def filesHeader (files : List FileRec) : String :=
  "Files changed in PR: " ++ toString files.length ++ "\n\n"

/-- The report built by `FetchPRFilesTool._run` from a 200 response:
the header followed by `for file in files[:20]: output += block`. -/
def renderFiles (files : List FileRec) : String :=
  (files.take 20).foldl (fun acc f => acc ++ fileBlock f) (filesHeader files)

/-- `FetchPRFilesTool._run` (same uncaught-exception and error-branch
structure as `FetchPRTool._run`). -/
def fetchPRFiles_run (o : HttpOutcome (List FileRec)) : RunResult :=
  match o with
  | .exn msg => .raised msg
  | .resp status text files =>
      if status ≠ 200 then .returned ("Error: " ++ toString status ++ " - " ++ text)
      else .returned (renderFiles files)

/-- One element of the `/comments` JSON list, restricted to the fields
`FetchPRCommentsTool._run` reads. -/
structure CommentRec where
  user_login : String
  path : Option String
  line : Option Nat
  body : String
deriving DecidableEq

/-- One comment block of the `fetch_pr_comments` report. -/
def commentBlock (c : CommentRec) : String :=
  "Comment by " ++ c.user_login
    ++ ":\nFile: " ++ c.path.getD "General"
    ++ "\nLine: " ++ (match c.line with | some n => toString n | none => "N/A")
    ++ "\nComment: " ++ c.body ++ "\n\n---\n"

/-- The header line `Review Comments ({len(comments)} total)` — again
the length of the full upstream list. -/
def commentsHeader (comments : List CommentRec) : String :=
  "Review Comments (" ++ toString comments.length ++ " total):\n\n"

/-- The report built by `FetchPRCommentsTool._run` from a 200
response: the empty list short-circuits (`if not comments`), otherwise
the header is followed by `for comment in comments[:10]`. -/
def renderComments (comments : List CommentRec) : String :=
  if comments.isEmpty then "No review comments on this PR."
  else (comments.take 10).foldl (fun acc c => acc ++ commentBlock c) (commentsHeader comments)

/-- `FetchPRCommentsTool._run`. -/
def fetchPRComments_run (o : HttpOutcome (List CommentRec)) : RunResult :=
  match o with
  | .exn msg => .raised msg
  | .resp status text comments =>
      if status ≠ 200 then .returned ("Error: " ++ toString status ++ " - " ++ text)
      else .returned (renderComments comments)

/-- One element of the `/commits` JSON list, restricted to the fields
`FetchPRCommitsTool._run` reads. -/
structure CommitRec where
  sha : String
  author_name : String
  date : String
  message : String
deriving DecidableEq

/-- One commit block of the `fetch_pr_commits` report. -/
def commitBlock (c : CommitRec) : String :=
  "Commit: " ++ pySlice c.sha 7
    ++ "\nAuthor: " ++ c.author_name
    ++ "\nDate: " ++ c.date
    ++ "\nMessage: " ++ c.message ++ "\n\n---\n"

/-- The report built by `FetchPRCommitsTool._run` from a 200 response
(the commit loop is uncapped). -/
def renderCommits (commits : List CommitRec) : String :=
  commits.foldl (fun acc c => acc ++ commitBlock c)
    ("Commits in PR: " ++ toString commits.length ++ "\n\n")

/-- `FetchPRCommitsTool._run`. -/
def fetchPRCommits_run (o : HttpOutcome (List CommitRec)) : RunResult :=
  match o with
  | .exn msg => .raised msg
  | .resp status text commits =>
      if status ≠ 200 then .returned ("Error: " ++ toString status ++ " - " ++ text)
      else .returned (renderCommits commits)

/-- One tool object created by the factory in `github_tools.py`.
`objId` models Python object identity: each constructor call in
`create_github_tools` allocates a fresh instance, so two tools with
the same `objId` are the same Python object. -/
structure ToolInstance where
  objId : Nat
  name : String
  github_token : Option String
deriving DecidableEq

/-- `create_github_tools(github_token)`: four fresh tool instances,
each holding its own copy of the token value. `firstId` is the first
fresh object id available at the call. -/
def create_github_tools (firstId : Nat) (github_token : String) : List ToolInstance :=
  [ ⟨firstId, "fetch_pr", some github_token⟩,
    ⟨firstId + 1, "fetch_pr_files", some github_token⟩,
    ⟨firstId + 2, "fetch_pr_comments", some github_token⟩,
    ⟨firstId + 3, "fetch_pr_commits", some github_token⟩ ]

/-- An agent as configured in `pr_analyzer.py` (role, its tool-object
list, and the model name; the goal/backstory prompt text is not read
by any claim and is omitted). -/
structure AgentSpec where
  role : String
  tools : List ToolInstance
  llm : String
deriving DecidableEq

/-- The four tasks of `run_pr_analysis_crew`, as identifiers. -/
inductive TaskId where
  | overview
  | codeReview
  | community
  | summary
deriving DecidableEq

/-- A task as configured in `pr_analyzer.py`: the role of the agent it
is bound to and its explicit `context` dependency list (the
description/expected-output prompt text is not read by any claim and
is omitted).  `overview_task` passes no `context` argument, which is
modelled as the empty dependency list. -/
structure TaskSpec where
  agent_role : String
  context : List TaskId
deriving DecidableEq

/-- The agents and tasks built by one call of `run_pr_analysis_crew`. -/
structure CrewSpec where
  overview_agent : AgentSpec
  code_reviewer : AgentSpec
  community_analyst : AgentSpec
  summarizer : AgentSpec
  overview_task : TaskSpec
  code_review_task : TaskSpec
  community_task : TaskSpec
  summary_task : TaskSpec
deriving DecidableEq

/-- The wiring of `run_pr_analysis_crew` in `pr_analyzer.py`:
`github_tools = create_github_tools(github_token)` is evaluated once
(allocating object ids 0..3) and the resulting list is passed as the
`tools` argument of the overview agent, the code reviewer and the
community analyst; the summarizer gets `tools=[]`.  Only
`summary_task` declares a `context` dependency list. -/
def run_pr_analysis_crew (github_token : String) : CrewSpec :=
  let github_tools := create_github_tools 0 github_token
  { overview_agent := ⟨"PR Overview Specialist", github_tools, "gpt-4o-mini"⟩
    code_reviewer := ⟨"Senior Code Reviewer", github_tools, "gpt-4o"⟩
    community_analyst := ⟨"Community Engagement Analyst", github_tools, "gpt-4o-mini"⟩
    summarizer := ⟨"Technical Writer", [], "gpt-4o-mini"⟩
    overview_task := ⟨"PR Overview Specialist", []⟩
    code_review_task := ⟨"Senior Code Reviewer", []⟩
    community_task := ⟨"Community Engagement Analyst", []⟩
    summary_task := ⟨"Technical Writer", [.overview, .codeReview, .community]⟩ }

/-- The declared `context` dependency list of each task of a crew. -/
def taskContextOf (c : CrewSpec) : TaskId → List TaskId
  | .overview => c.overview_task.context
  | .codeReview => c.code_review_task.context
  | .community => c.community_task.context
  | .summary => c.summary_task.context

/-- The order of the `tasks=[...]` list handed to `Crew`. -/
def crewTaskOrder : List TaskId := [.overview, .codeReview, .community, .summary]

/-- A completion order of tasks respects the declared dependencies
when every task that appears completes after each task in its
`context` list. -/
def respectsDeps (c : CrewSpec) (order : List TaskId) : Bool :=
  order.all fun t =>
    (taskContextOf c t).all fun d => decide (order.indexOf d < order.indexOf t)

/-- The broker result injected by the Keycard `grant` decorator, as
consumed by `server.py`: the `has_errors()` indicator, the
`get_errors()` text, and the token access, where an `error` value
models `access_context.access("https://api.github.com").access_token`
raising an exception with that message. -/
structure BrokerCtx where
  hasErrors : Bool
  errors : String
  tokenAccess : Except String String

/-- The JSON fields of the pull-request payload that
`fetch_pr_authenticated` reads; `none` models a missing key or JSON
`null` value (both make `data.get(...) or ...` fall to the default). -/
structure PRJson where
  title : Option String
  state : Option String
  user_login : Option String
  body : Option String
  base_repo_private : Bool
  html_url : Option String
  created_at : Option String
  updated_at : Option String
deriving DecidableEq

/-- The success dict returned by `fetch_pr_authenticated` (the Python
key named after repository privacy is modelled by the field `priv`). -/
structure AuthOkDict where
  title : Option String
  state : Option String
  user : Option String
  body : String
  priv : Bool
  url : Option String
  created_at : Option String
  updated_at : Option String
deriving DecidableEq

/-- Field projection of the success path of `fetch_pr_authenticated`,
including the truncation `(data.get("body") or "")[:500]`. -/
def projectPR (data : PRJson) : AuthOkDict :=
  { title := data.title
    state := data.state
    user := data.user_login
    body := pySlice (data.body.getD "") 500
    priv := data.base_repo_private
    url := data.html_url
    created_at := data.created_at
    updated_at := data.updated_at }

/-- The dict returned by `fetch_pr_authenticated`: a success dict, one
of the structured error dicts carrying `isError: True`
(`errDetails` for the auth-phase errors with an `error`/`details`
pair, `apiError` for the HTTPStatusError branch with an
`error`/`message` pair, `exnError` for the generic `except` branch
with only an `error` key). -/
inductive AuthRet where
  | ok (d : AuthOkDict)
  | errDetails (error : String) (details : String)
  | apiError (error : String) (message : String)
  | exnError (error : String)
deriving DecidableEq

/-- `fetch_pr_authenticated` in `server.py`: check the injected
context for presence, then `has_errors()`, then dereference the token
inside a `try`; afterwards issue the GET inside a `try` whose
`raise_for_status()` turns any non-2xx status into an
`HTTPStatusError` (caught, body truncated to 200 characters) and whose
generic `except` catches any other exception.  Note there is no check
that the token is non-empty: an empty token proceeds to the HTTP
call. -/
def fetch_pr_authenticated (keycard : Option BrokerCtx) (outcome : HttpOutcome PRJson) :
    AuthRet :=
  match keycard with
  | none =>
      .errDetails "Authentication context not available"
        "The grant decorator did not inject the auth context. Check: 1) User is authenticated, 2) KEYCARD_* env vars are set, 3) Enable KEYCARD_LOG_LEVEL=DEBUG for more info"
  | some c =>
      if c.hasErrors then .errDetails "Authentication failed" c.errors
      else
        match c.tokenAccess with
        | .error e => .errDetails "Failed to access GitHub token" e
        | .ok _token =>
            match outcome with
            | .exn msg => .exnError msg
            | .resp status text data =>
                if 200 ≤ status ∧ status < 300 then .ok (projectPR data)
                else .apiError ("GitHub API error: " ++ toString status) (pySlice text 200)

/-- Outcome of the token-checking phase of `test_github_token`:
either an early failure string, or the token with which the diagnostic
proceeds to its HTTP calls. -/
inductive TokenTestStep where
  | failMsg (s : String)
  | proceed (token : String)
deriving DecidableEq

/-- The token-checking phase of `test_github_token` in `server.py`:
`has_errors()` is consulted before the token is dereferenced; a
dereference that raises is caught by the surrounding `try` and
rendered as an error-testing message; an empty token is reported as
its own failure (`if not token`), distinct from the broker-error
message. -/
def test_github_token_check (c : BrokerCtx) : TokenTestStep :=
  if c.hasErrors then .failMsg ("❌ Token exchange failed: " ++ c.errors)
  else
    match c.tokenAccess with
    | .error e => .failMsg ("❌ Error testing token: " ++ e)
    | .ok token =>
        if token = "" then .failMsg "❌ No token received from Keycard"
        else .proceed token

/-- A concrete pull-request record used to instantiate theorems. -/
def samplePRData : PRData :=
  { title := "Add feature"
    number := 1
    author := "alice"
    state := "open"
    created_at := "2024-01-01"
    updated_at := "2024-01-02"
    body := "short description"
    html_url := "https://github.com/o/r/pull/1"
    additions := 2
    deletions := 1
    changed_files := 1
    commits := 1
    mergeable_state := "clean"
    draft := false }

/-- A concrete pull-request record whose description is 1001
characters long. -/
def longBodyPRData : PRData :=
  { samplePRData with body := ⟨List.replicate 1001 'a'⟩ }

/-- A concrete changed-file record used to instantiate theorems. -/
def sampleFileRec : FileRec :=
  { filename := "main.py"
    status := "modified"
    additions := 3
    deletions := 2
    patch := some "@@ -1 +1 @@" }

/-- A concrete changed-file record whose patch is 501 characters
long. -/
def longPatchFileRec : FileRec :=
  { sampleFileRec with patch := some ⟨List.replicate 501 'b'⟩ }

/-- A concrete review-comment record used to instantiate theorems. -/
def sampleCommentRec : CommentRec :=
  { user_login := "bob"
    path := some "main.py"
    line := some 3
    body := "looks good" }

/-- A 250-character upstream error body, used to exhibit the absence
of error-body truncation in the tools. -/
def longErrBody : String := ⟨List.replicate 250 'x'⟩

/-- A concrete JSON payload for the authenticated server fetch. -/
def samplePRJson : PRJson :=
  { title := some "Add feature"
    state := some "open"
    user_login := some "alice"
    body := some "short description"
    base_repo_private := false
    html_url := some "https://github.com/o/r/pull/1"
    created_at := some "2024-01-01"
    updated_at := some "2024-01-02" }

/-! Helper lemmas about the embedded renderers. -/

theorem pySlice_length (s : String) (n : Nat) : (pySlice s n).length = min n s.length := by
  show (s.data.take n).length = min n s.data.length
  exact List.length_take n s.data

theorem str_append_assoc (a b c : String) : a ++ b ++ c = a ++ (b ++ c) :=
  String.ext (by simp [String.data_append, List.append_assoc])

theorem str_append_empty (s : String) : s ++ "" = s :=
  String.ext (by simp [String.data_append])

/-- A Python loop `for x in l: output += g(x)` starting from `init`
produces `init` followed by the concatenation of the blocks. -/
theorem foldl_append_blocks {α : Type} (g : α → String) (l : List α) (init : String) :
    l.foldl (fun acc x => acc ++ g x) init = init ++ concatStrs (l.map g) := by
  induction l generalizing init with
  | nil => simp [concatStrs, str_append_empty]
  | cons x xs ih =>
      simp only [List.foldl, List.map, concatStrs]
      rw [ih, str_append_assoc]

/-- The file report is the header followed by the blocks of the first
20 files. -/
theorem renderFiles_eq (files : List FileRec) :
    renderFiles files = filesHeader files ++ concatStrs ((files.take 20).map fileBlock) :=
  foldl_append_blocks fileBlock (files.take 20) (filesHeader files)

/-- The comment report on a non-empty list is the header followed by
the blocks of the first 10 comments. -/
theorem renderComments_eq (comments : List CommentRec) (h : comments ≠ []) :
    renderComments comments
      = commentsHeader comments ++ concatStrs ((comments.take 10).map commentBlock) := by
  have hne : comments.isEmpty = false := by
    cases comments with
    | nil => exact absurd rfl h
    | cons c cs => rfl
  unfold renderComments
  rw [hne]
  exact foldl_append_blocks commentBlock (comments.take 10) (commentsHeader comments)

/-- Capping a list longer than `n` to its first `n` elements and
rendering each yields exactly `n` blocks. -/
theorem map_take_length {α : Type} (g : α → String) (l : List α) (n : Nat)
    (h : n < l.length) : ((l.take n).map g).length = n := by
  rw [List.length_map, List.length_take]
  exact Nat.min_eq_left (Nat.le_of_lt h)

/-! Claim theorems. -/

/-- Claim C10: a 200 response whose comment list is empty makes
`fetch_pr_comments` return exactly the string
`No review comments on this PR.`, not a formatted listing with a zero
count. -/
theorem c10_empty_comment_list :
    renderComments [] = "No review comments on this PR." ∧
    renderComments [] ≠ commentsHeader [] ++ concatStrs (([].take 10).map commentBlock) ∧
    fetchPRComments_run (.resp 200 "[]" []) = .returned "No review comments on this PR." := by
  refine ⟨rfl, by decide, rfl⟩

/-- Claim C5: a successful files response with more than 20 entries is
rendered as the header followed by the blocks of exactly the first 20
files, and a successful comments response with more than 10 entries as
the header followed by the blocks of exactly the first 10 comments. -/
theorem c5_cap_enforcement (files : List FileRec) (comments : List CommentRec)
    (hf : 20 < files.length) (hc : 10 < comments.length) :
    renderFiles files = filesHeader files ++ concatStrs ((files.take 20).map fileBlock) ∧
    ((files.take 20).map fileBlock).length = 20 ∧
    renderComments comments
      = commentsHeader comments ++ concatStrs ((comments.take 10).map commentBlock) ∧
    ((comments.take 10).map commentBlock).length = 10 := by
  have hne : comments ≠ [] := by
    intro h
    rw [h] at hc
    exact absurd hc (by decide)
  exact ⟨renderFiles_eq files, map_take_length fileBlock files 20 hf,
         renderComments_eq comments hne, map_take_length commentBlock comments 10 hc⟩

/-- Witness for C5 at a 30-entry file list and a 12-entry comment
list. -/
theorem c5_cap_enforcement_witness :
    20 < (List.replicate 30 sampleFileRec).length ∧
    10 < (List.replicate 12 sampleCommentRec).length ∧
    (((List.replicate 30 sampleFileRec).take 20).map fileBlock).length = 20 ∧
    (((List.replicate 12 sampleCommentRec).take 10).map commentBlock).length = 10 := by
  have hf : 20 < (List.replicate 30 sampleFileRec).length := by simp
  have hc : 10 < (List.replicate 12 sampleCommentRec).length := by simp
  have main := c5_cap_enforcement (List.replicate 30 sampleFileRec)
    (List.replicate 12 sampleCommentRec) hf hc
  exact ⟨hf, hc, main.2.1, main.2.2.2⟩

/-- Claim C9: the count printed in the section headers is the length
of the full upstream list, so for a list longer than the cap the
header count exceeds the number of rendered entries (20 or 10). -/
theorem c9_header_counts_full_length (files : List FileRec) (comments : List CommentRec)
    (hf : 20 < files.length) (hc : 10 < comments.length) :
    renderFiles files
      = ("Files changed in PR: " ++ toString files.length ++ "\n\n")
        ++ concatStrs ((files.take 20).map fileBlock) ∧
    ((files.take 20).map fileBlock).length = 20 ∧ 20 < files.length ∧
    renderComments comments
      = ("Review Comments (" ++ toString comments.length ++ " total):\n\n")
        ++ concatStrs ((comments.take 10).map commentBlock) ∧
    ((comments.take 10).map commentBlock).length = 10 ∧ 10 < comments.length := by
  have hne : comments ≠ [] := by
    intro h
    rw [h] at hc
    exact absurd hc (by decide)
  exact ⟨renderFiles_eq files, map_take_length fileBlock files 20 hf, hf,
         renderComments_eq comments hne, map_take_length commentBlock comments 10 hc, hc⟩

/-- Witness for C9 at a 25-entry file list and an 11-entry comment
list. -/
theorem c9_header_counts_full_length_witness :
    20 < (List.replicate 25 sampleFileRec).length ∧
    10 < (List.replicate 11 sampleCommentRec).length ∧
    (((List.replicate 25 sampleFileRec).take 20).map fileBlock).length = 20 ∧
    (((List.replicate 11 sampleCommentRec).take 10).map commentBlock).length = 10 := by
  have hf : 20 < (List.replicate 25 sampleFileRec).length := by simp
  have hc : 10 < (List.replicate 11 sampleCommentRec).length := by simp
  have main := c9_header_counts_full_length (List.replicate 25 sampleFileRec)
    (List.replicate 11 sampleCommentRec) hf hc
  exact ⟨hf, hc, main.2.1, main.2.2.2.2.1⟩

/-- Claim C6: a description longer than 1000 characters is embedded in
the report as exactly its first 1000 characters, and a patch longer
than 500 characters as exactly its first 500; the renderers are pure
functions, so repeated runs on the same input give the same output by
reflexivity. -/
theorem c6_fixed_truncation (p : PRData) (f : FileRec) (patch : String)
    (hb : 1000 < p.body.length) (hp : f.patch = some patch) (hpl : 500 < patch.length) :
    renderPR p = renderPRHead p ++ pySlice p.body 1000 ++ renderPRTail p ∧
    (pySlice p.body 1000).length = 1000 ∧
    fileBlock f = fileBlockHead f ++ pySlice patch 500 ++ "\n\n---\n" ∧
    (pySlice patch 500).length = 500 := by
  have hbne : p.body ≠ "" := by
    intro h
    rw [h] at hb
    exact absurd hb (by decide)
  refine ⟨?_, ?_, ?_, ?_⟩
  · unfold renderPR prDescription
    rw [if_neg hbne]
  · rw [pySlice_length]
    exact Nat.min_eq_left (Nat.le_of_lt hb)
  · unfold fileBlock
    rw [hp]
    rfl
  · rw [pySlice_length]
    exact Nat.min_eq_left (Nat.le_of_lt hpl)

/-- Witness for C6 at a 1001-character description and a 501-character
patch. -/
theorem c6_fixed_truncation_witness :
    1000 < longBodyPRData.body.length ∧
    longPatchFileRec.patch = some (⟨List.replicate 501 'b'⟩ : String) ∧
    500 < (⟨List.replicate 501 'b'⟩ : String).length ∧
    (pySlice longBodyPRData.body 1000).length = 1000 ∧
    (pySlice (⟨List.replicate 501 'b'⟩ : String) 500).length = 500 := by
  have h1 : 1000 < longBodyPRData.body.length := by
    show 1000 < (List.replicate 1001 'a').length
    rw [List.length_replicate]
    exact Nat.lt_succ_self 1000
  have h3 : 500 < (⟨List.replicate 501 'b'⟩ : String).length := by
    show 500 < (List.replicate 501 'b').length
    rw [List.length_replicate]
    exact Nat.lt_succ_self 500
  have main := c6_fixed_truncation longBodyPRData longPatchFileRec
    ⟨List.replicate 501 'b'⟩ h1 rfl h3
  exact ⟨h1, rfl, h3, main.2.1, main.2.2.2⟩

/-- Claim C2 counterexample: the claim says a transport exception
raised by the HTTP call is caught inside every fetch operation; but
`FetchPRTool._run` wraps `httpx.get` in no `try`, so at the concrete
input where the call raises, the exception propagates to the caller
instead of being converted to an error result. -/
theorem c2_counterexample :
    fetchPR_run (.exn "httpx.ConnectTimeout: timed out")
      = .raised "httpx.ConnectTimeout: timed out" := rfl

/-- Claim C2 (amended): the four tool operations propagate a
network-level exception to their caller uncaught; only the
server-side `fetch_pr_authenticated` catches it and converts it to an
error dict carrying the exception message. -/
theorem c2_exception_paths (msg : String) :
    fetchPR_run (.exn msg) = .raised msg ∧
    fetchPRFiles_run (.exn msg) = .raised msg ∧
    fetchPRComments_run (.exn msg) = .raised msg ∧
    fetchPRCommits_run (.exn msg) = .raised msg ∧
    fetch_pr_authenticated (some ⟨false, "", Except.ok "tok"⟩) (.exn msg)
      = .exnError msg :=
  ⟨rfl, rfl, rfl, rfl, rfl⟩

set_option maxRecDepth 4000 in
/-- Claim C4 counterexample: the claim says error bodies are truncated
to at most 200 characters; but on a 404 with a 250-character body,
`FetchPRTool._run` returns the full body — a 263-character message,
while truncation to 200 would bound it by 13 + 200 = 213. -/
theorem c4_counterexample :
    fetchPR_run (.resp 404 longErrBody samplePRData)
      = .returned ("Error: " ++ toString 404 ++ " - " ++ longErrBody) ∧
    ("Error: " ++ toString 404 ++ " - " ++ longErrBody).length = 263 := by
  refine ⟨rfl, ?_⟩
  rw [String.length_append, String.length_append, String.length_append]
  show 7 + (toString 404).length + 3 + (List.replicate 250 'x').length = 263
  rw [List.length_replicate]
  decide

/-- Claim C4 (amended): on a non-200 response every tool operation
returns an error string containing the status code followed by the
complete, untruncated body; only the server-side
`fetch_pr_authenticated` truncates the error body to at most 200
characters (and, on success, the description to 500). -/
theorem c4_error_bodies (status : Nat) (text : String) (d : PRData)
    (files : List FileRec) (comments : List CommentRec) (commits : List CommitRec)
    (j : PRJson) (h : status ≠ 200) (h2 : ¬(200 ≤ status ∧ status < 300)) :
    fetchPR_run (.resp status text d)
      = .returned ("Error: " ++ toString status ++ " - " ++ text) ∧
    fetchPRFiles_run (.resp status text files)
      = .returned ("Error: " ++ toString status ++ " - " ++ text) ∧
    fetchPRComments_run (.resp status text comments)
      = .returned ("Error: " ++ toString status ++ " - " ++ text) ∧
    fetchPRCommits_run (.resp status text commits)
      = .returned ("Error: " ++ toString status ++ " - " ++ text) ∧
    fetch_pr_authenticated (some ⟨false, "", Except.ok "tok"⟩) (.resp status text j)
      = .apiError ("GitHub API error: " ++ toString status) (pySlice text 200) ∧
    (pySlice text 200).length ≤ 200 := by
  have hstep : fetch_pr_authenticated (some ⟨false, "", Except.ok "tok"⟩)
        (.resp status text j)
      = if 200 ≤ status ∧ status < 300 then .ok (projectPR j)
        else .apiError ("GitHub API error: " ++ toString status) (pySlice text 200) := rfl
  refine ⟨?_, ?_, ?_, ?_, ?_, ?_⟩
  · simp only [fetchPR_run]
    rw [if_pos h]
  · simp only [fetchPRFiles_run]
    rw [if_pos h]
  · simp only [fetchPRComments_run]
    rw [if_pos h]
  · simp only [fetchPRCommits_run]
    rw [if_pos h]
  · rw [hstep, if_neg h2]
  · rw [pySlice_length]
    exact Nat.min_le_left _ _

/-- Witness for (amended) C4 at status 404. -/
theorem c4_error_bodies_witness :
    (404 : Nat) ≠ 200 ∧ ¬((200 : Nat) ≤ 404 ∧ (404 : Nat) < 300) ∧
    fetch_pr_authenticated (some ⟨false, "", Except.ok "tok"⟩) (.resp 404 "oops" samplePRJson)
      = .apiError ("GitHub API error: " ++ toString 404) (pySlice "oops" 200) ∧
    (pySlice "oops" 200).length ≤ 200 := by
  have h : (404 : Nat) ≠ 200 := by decide
  have h2 : ¬((200 : Nat) ≤ 404 ∧ (404 : Nat) < 300) := by decide
  have main := c4_error_bodies 404 "oops" samplePRData [] [] [] samplePRJson h h2
  exact ⟨h, h2, main.2.2.2.2.1, main.2.2.2.2.2⟩

/-- Claim C7 counterexample: the claim says the Authorization header
is attached if and only if a token is supplied (absent meaning
`None`); but with the supplied token `""` — which is not `None` — the
tools attach no Authorization header, because the code tests Python
truthiness (`if self.github_token:`), not presence. -/
theorem c7_counterexample :
    (some "" : Option String) ≠ none ∧
    toolHeaders (some "") = [("Accept", "application/vnd.github.v3+json")] ∧
    ∀ p ∈ toolHeaders (some ""), p.1 ≠ "Authorization" := by
  refine ⟨by decide, rfl, by decide⟩

/-- Claim C7 (amended): the request of `fetch_pr` goes to the URL
built from the identifier with timeout 10 and carries a
`Bearer` Authorization header iff the supplied token is truthy
(present and non-empty); with no token the headers are exactly the
Accept header, and the call is still issued — a 200 response renders
the report regardless of the token. -/
theorem c7_auth_header_iff_truthy (repo : String) (pr_number : Nat)
    (github_token : Option String) (text : String) (d : PRData) :
    (fetchPR_request repo pr_number github_token).url = pr_url repo pr_number ∧
    (fetchPR_request repo pr_number github_token).timeout = 10 ∧
    (pyTruthy github_token = true ↔
      ∃ p ∈ (fetchPR_request repo pr_number github_token).headers, p.1 = "Authorization") ∧
    (github_token = none →
      (fetchPR_request repo pr_number github_token).headers
        = [("Accept", "application/vnd.github.v3+json")]) ∧
    fetchPR_run (.resp 200 text d) = .returned (renderPR d) := by
  refine ⟨rfl, rfl, ?_, ?_, rfl⟩
  · cases github_token with
    | none =>
        show pyTruthy none = true ↔ ∃ p ∈ toolHeaders none, p.1 = "Authorization"
        decide
    | some t =>
        by_cases he : t = ""
        · subst he
          show pyTruthy (some "") = true
            ↔ ∃ p ∈ toolHeaders (some ""), p.1 = "Authorization"
          decide
        · show pyTruthy (some t) = true
            ↔ ∃ p ∈ toolHeaders (some t), p.1 = "Authorization"
          constructor
          · intro _
            refine ⟨("Authorization", "Bearer " ++ t), ?_, rfl⟩
            simp only [toolHeaders]
            rw [if_neg he]
            exact List.mem_cons_of_mem _ (List.mem_singleton.mpr rfl)
          · intro _
            simp [pyTruthy, he]
  · intro hnone
    subst hnone
    rfl

/-- Witness for (amended) C7 at a missing token and at a non-empty
token. -/
theorem c7_auth_header_iff_truthy_witness :
    (fetchPR_request "o/r" 5 none).headers = [("Accept", "application/vnd.github.v3+json")] ∧
    fetchPR_run (.resp 200 "ok" samplePRData) = .returned (renderPR samplePRData) ∧
    (pyTruthy (some "ghp_abc") = true ↔
      ∃ p ∈ (fetchPR_request "o/r" 5 (some "ghp_abc")).headers, p.1 = "Authorization") := by
  have m1 := c7_auth_header_iff_truthy "o/r" 5 none "ok" samplePRData
  have m2 := c7_auth_header_iff_truthy "o/r" 5 (some "ghp_abc") "ok" samplePRData
  exact ⟨m1.2.2.2.1 rfl, m1.2.2.2.2, m2.2.2.1⟩

/-- Claim C8 counterexample: the claim says every token-consuming tool
treats a missing/empty token as a failure; but
`fetch_pr_authenticated`, handed a broker result whose token is the
empty string, does not fail — it proceeds to the HTTP call and, on a
200 response, returns the success dict. -/
theorem c8_counterexample :
    fetch_pr_authenticated (some ⟨false, "", Except.ok ""⟩) (.resp 200 "" samplePRJson)
      = .ok (projectPR samplePRJson) := rfl

/-- Claim C8 (amended): the token-consuming tools check the broker
result before dereferencing the token — a missing context and an
explicit broker error each yield a structured error result, decided
before the token access is even inspected — and `test_github_token`
additionally treats an empty token as its own failure mode, distinct
from the broker-error message; `fetch_pr_authenticated` has no such
empty-token check. -/
theorem c8_broker_result_checks (errs : String) (acc : Except String String) (e : String)
    (o o2 o3 : HttpOutcome PRJson) (c : BrokerCtx) (hc : c.hasErrors = true) :
    fetch_pr_authenticated none o
      = .errDetails "Authentication context not available"
          "The grant decorator did not inject the auth context. Check: 1) User is authenticated, 2) KEYCARD_* env vars are set, 3) Enable KEYCARD_LOG_LEVEL=DEBUG for more info" ∧
    fetch_pr_authenticated (some ⟨true, errs, acc⟩) o2
      = .errDetails "Authentication failed" errs ∧
    fetch_pr_authenticated (some ⟨false, errs, Except.error e⟩) o3
      = .errDetails "Failed to access GitHub token" e ∧
    test_github_token_check c = .failMsg ("❌ Token exchange failed: " ++ c.errors) ∧
    test_github_token_check ⟨false, errs, Except.ok ""⟩
      = .failMsg "❌ No token received from Keycard" := by
  refine ⟨rfl, rfl, rfl, ?_, rfl⟩
  unfold test_github_token_check
  rw [hc]
  rfl

/-- Witness for (amended) C8 at a broker result with an explicit
error. -/
theorem c8_broker_result_checks_witness :
    (⟨true, "boom", Except.ok "t"⟩ : BrokerCtx).hasErrors = true ∧
    test_github_token_check ⟨true, "boom", Except.ok "t"⟩
      = .failMsg ("❌ Token exchange failed: "
          ++ (⟨true, "boom", Except.ok "t"⟩ : BrokerCtx).errors) := by
  have main := c8_broker_result_checks "x" (Except.ok "y") "z" (.exn "a") (.exn "b") (.exn "c")
    (⟨true, "boom", Except.ok "t"⟩ : BrokerCtx) rfl
  exact ⟨rfl, main.2.2.2.1⟩

/-- Claim C1 counterexample: the claim says each fan-out worker owns
its own Resource Client handle, not a reference shared with the other
workers; but `run_pr_analysis_crew` calls `create_github_tools` once
and hands the very same four tool instances (equal object ids) to all
three workers. -/
theorem c1_counterexample :
    (run_pr_analysis_crew "ghp_tok").overview_agent.tools
      = (run_pr_analysis_crew "ghp_tok").code_reviewer.tools ∧
    (run_pr_analysis_crew "ghp_tok").code_reviewer.tools
      = (run_pr_analysis_crew "ghp_tok").community_analyst.tools ∧
    (run_pr_analysis_crew "ghp_tok").overview_agent.tools ≠ [] :=
  ⟨rfl, rfl, by decide⟩

/-- Claim C1 (amended): the three upstream workers are handed one and
the same tool list, created once per run by `create_github_tools`;
each tool instance in it stores its own copy of the token value, and
the summarizer has no tools.  The tool objects are shared between the
workers, but the only state they carry is the token value copied in at
construction. -/
theorem c1_shared_tools_token_copied (github_token : String) :
    (run_pr_analysis_crew github_token).overview_agent.tools
      = create_github_tools 0 github_token ∧
    (run_pr_analysis_crew github_token).code_reviewer.tools
      = (run_pr_analysis_crew github_token).overview_agent.tools ∧
    (run_pr_analysis_crew github_token).community_analyst.tools
      = (run_pr_analysis_crew github_token).overview_agent.tools ∧
    (run_pr_analysis_crew github_token).summarizer.tools = [] ∧
    ∀ t ∈ (run_pr_analysis_crew github_token).overview_agent.tools,
      t.github_token = some github_token := by
  refine ⟨rfl, rfl, rfl, rfl, ?_⟩
  intro t ht
  simp only [run_pr_analysis_crew, create_github_tools, List.mem_cons,
    List.not_mem_nil, or_false] at ht
  rcases ht with h | h | h | h <;> subst h <;> rfl

/-- Witness for (amended) C1 at the token `"tok"` and the first tool
instance. -/
theorem c1_shared_tools_token_copied_witness :
    (⟨0, "fetch_pr", some "tok"⟩ : ToolInstance)
        ∈ (run_pr_analysis_crew "tok").overview_agent.tools ∧
    (⟨0, "fetch_pr", some "tok"⟩ : ToolInstance).github_token = some "tok" := by
  have hm : (⟨0, "fetch_pr", some "tok"⟩ : ToolInstance)
      ∈ (run_pr_analysis_crew "tok").overview_agent.tools := by decide
  exact ⟨hm, (c1_shared_tools_token_copied "tok").2.2.2.2 _ hm⟩

/-- Claim C3: `summary_task` declares an explicit context dependency
on exactly the three worker tasks, every other task declares none (so
this is the only declared cross-task ordering constraint), and in
every task completion order that respects the declared dependencies
and completes the summary, each of the three worker tasks completes
strictly before the summary. -/
theorem c3_synthesis_dependencies (github_token : String) (order : List TaskId)
    (hv : respectsDeps (run_pr_analysis_crew github_token) order = true)
    (hs : TaskId.summary ∈ order) :
    (run_pr_analysis_crew github_token).summary_task.context
      = [TaskId.overview, TaskId.codeReview, TaskId.community] ∧
    (run_pr_analysis_crew github_token).overview_task.context = [] ∧
    (run_pr_analysis_crew github_token).code_review_task.context = [] ∧
    (run_pr_analysis_crew github_token).community_task.context = [] ∧
    ∀ d ∈ (run_pr_analysis_crew github_token).summary_task.context,
      order.indexOf d < order.indexOf TaskId.summary := by
  refine ⟨rfl, rfl, rfl, rfl, ?_⟩
  intro d hd
  have h1 := (List.all_eq_true.mp hv) TaskId.summary hs
  have h2 := (List.all_eq_true.mp h1) d hd
  exact of_decide_eq_true h2

/-- Witness for C3 at the task order of the `tasks=[...]` list. -/
theorem c3_synthesis_dependencies_witness :
    respectsDeps (run_pr_analysis_crew "tok") crewTaskOrder = true ∧
    TaskId.summary ∈ crewTaskOrder ∧
    ∀ d ∈ (run_pr_analysis_crew "tok").summary_task.context,
      crewTaskOrder.indexOf d < crewTaskOrder.indexOf TaskId.summary := by
  have hv : respectsDeps (run_pr_analysis_crew "tok") crewTaskOrder = true := by decide
  have hs : TaskId.summary ∈ crewTaskOrder := by decide
  exact ⟨hv, hs, (c3_synthesis_dependencies "tok" crewTaskOrder hv hs).2.2.2.2⟩
